import Mathlib

/-!
Verification of the elastix SplineKernelTransform component
(src/Components/Transforms/SplineKernelTransform/elxSplineKernelTransform.hxx)
and of the TransformixFilter application pipeline (elxTransformixFilter.hxx,
shipped here as an unnamed source file), as a shallow embedding in Lean 4.

Numeric parameters (stiffness, Poisson ratio, landmark coordinates) are
modelled over the rationals; the claims under study concern control flow,
state updates and index arithmetic, never floating-point rounding.
C++ unsigned int arithmetic is modelled on Nat with explicit reduction
modulo 2^32 where an underflow matters.
-/

namespace Elx

/-- Width of the C++ unsigned int used by the code, as the modulus 2^32. -/
def UINT_MAX_SUCC : Nat := 4294967296

/-- The C++ expression n - 1 evaluated on an unsigned int holding the
natural number n: wraps to 2^32 - 1 when n = 0. -/
def u32pred (n : Nat) : Nat := (n + (UINT_MAX_SUCC - 1)) % UINT_MAX_SUCC

/-- The concrete kernel-transform classes the engine can instantiate:
the generic base class KernelTransformType (the disabled unknown state),
and the family-specific subclasses TPKernelTransformType,
TPRKernelTransformType, VKernelTransformType, EBKernelTransformType and
EBRKernelTransformType of elxSplineKernelTransform.h. -/
inductive KernelKind where
  | generic
  | thinPlate
  | thinPlateR2LogR
  | volume
  | elasticBody
  | elasticBodyReciprocal
deriving DecidableEq, Repr

/-- State of the underlying itk kernel-transform object held in
m_KernelTransform. Fields record the values passed through its setters
(SetStiffness, SetPoissonRatio, SetMatrixInversionMethod,
SetSourceLandmarks, SetTargetLandmarks, SetIdentity, SetFixedParameters,
SetParameters); poissonSet records whether SetPoissonRatio was ever
invoked, identitySet whether SetIdentity was. -/
structure KernelTransform where
  kind : KernelKind
  stiffness : Rat := 0
  poisson : Rat := 1/4
  poissonSet : Bool := false
  inversionMethod : String := "SVD"
  sourceLandmarksSet : Bool := false
  targetLandmarksSet : Bool := false
  identitySet : Bool := false
  fixedParameters : List Rat := []
  parameters : List Rat := []
deriving DecidableEq, Repr

/-- A freshly constructed kernel-transform object of the given class
(KernelTransformType::New and its subclasses). -/
def freshKernelTransform (k : KernelKind) : KernelTransform := { kind := k }

/-- State of the elastix SplineKernelTransform component: the stored family
name string, the owned kernel-transform object, and the transform installed
through SetCurrentTransform (none until a selection succeeds). -/
structure Engine where
  m_SplineKernelType : String
  m_KernelTransform : KernelTransform
  currentTransform : Option KernelKind
deriving DecidableEq, Repr

/-- SplineKernelTransform::SetKernelType (elxSplineKernelTransform.hxx lines
42 to 94). Stores the requested name, then: in 2-D always instantiates the
R2LogR variant and succeeds; otherwise matches the name against
ThinPlateSpline, VolumeSpline, ElasticBodySpline and
ElasticBodyReciprocalSpline (the ThinPlateR2LogRSpline branch is commented
out in the source), instantiating the matching class and installing it via
SetCurrentTransform; an unmatched name instantiates the generic base class
and returns false without installing it. -/
def SetKernelType (SpaceDimension : Nat) (s : Engine) (kernelType : String) :
    Engine × Bool :=
  let s := { s with m_SplineKernelType := kernelType }
  if SpaceDimension = 2 then
    ({ s with m_KernelTransform := freshKernelTransform .thinPlateR2LogR,
              currentTransform := some .thinPlateR2LogR }, true)
  else if kernelType = "ThinPlateSpline" then
    ({ s with m_KernelTransform := freshKernelTransform .thinPlate,
              currentTransform := some .thinPlate }, true)
  else if kernelType = "VolumeSpline" then
    ({ s with m_KernelTransform := freshKernelTransform .volume,
              currentTransform := some .volume }, true)
  else if kernelType = "ElasticBodySpline" then
    ({ s with m_KernelTransform := freshKernelTransform .elasticBody,
              currentTransform := some .elasticBody }, true)
  else if kernelType = "ElasticBodyReciprocalSpline" then
    ({ s with m_KernelTransform := freshKernelTransform .elasticBodyReciprocal,
              currentTransform := some .elasticBodyReciprocal }, true)
  else
    ({ s with m_KernelTransform := freshKernelTransform .generic }, false)

/-- A SplineKernelTransform component as its constructor leaves it
(elxSplineKernelTransform.hxx lines 30 to 35): SetKernelType("unknown")
applied to an empty object. -/
def mkEngine (SpaceDimension : Nat) : Engine :=
  (SetKernelType SpaceDimension
    { m_SplineKernelType := "",
      m_KernelTransform := freshKernelTransform .generic,
      currentTransform := none } "unknown").1

/-- C1 counterexample: in 3-D the ThinPlateR2LogRSpline branch of
SetKernelType is commented out in the source, so selecting that name fails
and leaves the generic kernel transform, contradicting the claim that all
five family names are accepted. -/
theorem setKernelType_thinPlateR2LogR_rejected_3D :
    (SetKernelType 3 (mkEngine 3) "ThinPlateR2LogRSpline").2 = false ∧
    (SetKernelType 3 (mkEngine 3) "ThinPlateR2LogRSpline").1.m_KernelTransform.kind
      = KernelKind.generic ∧
    (SetKernelType 3 (mkEngine 3) "ThinPlateR2LogRSpline").1.currentTransform = none := by
  refine ⟨rfl, rfl, rfl⟩

/-- C1 (amended): family selection is dimension-gated. In 3-D exactly the
four names ThinPlateSpline, VolumeSpline, ElasticBodySpline and
ElasticBodyReciprocalSpline are accepted (ThinPlateR2LogRSpline is not:
its branch is commented out); each accepted name installs its family as the
current transform; every other name returns false, leaves the generic
kernel transform and does not install a current transform. In 2-D every
name is accepted and the R2LogR kernel is installed regardless. -/
theorem setKernelType_dimension_gating :
    (∀ s name, (SetKernelType 3 s name).2 = true ↔
      name = "ThinPlateSpline" ∨ name = "VolumeSpline" ∨
      name = "ElasticBodySpline" ∨ name = "ElasticBodyReciprocalSpline") ∧
    (∀ s name, (SetKernelType 3 s name).2 = false →
      (SetKernelType 3 s name).1.m_KernelTransform.kind = KernelKind.generic ∧
      (SetKernelType 3 s name).1.currentTransform = s.currentTransform) ∧
    (∀ s name, (SetKernelType 3 s name).2 = true →
      (SetKernelType 3 s name).1.currentTransform
        = some (SetKernelType 3 s name).1.m_KernelTransform.kind) ∧
    (∀ s, (SetKernelType 3 s "ThinPlateSpline").1.m_KernelTransform.kind
        = KernelKind.thinPlate ∧
      (SetKernelType 3 s "VolumeSpline").1.m_KernelTransform.kind
        = KernelKind.volume ∧
      (SetKernelType 3 s "ElasticBodySpline").1.m_KernelTransform.kind
        = KernelKind.elasticBody ∧
      (SetKernelType 3 s "ElasticBodyReciprocalSpline").1.m_KernelTransform.kind
        = KernelKind.elasticBodyReciprocal) ∧
    (∀ s name, (SetKernelType 2 s name).2 = true ∧
      (SetKernelType 2 s name).1.m_KernelTransform.kind = KernelKind.thinPlateR2LogR ∧
      (SetKernelType 2 s name).1.currentTransform = some KernelKind.thinPlateR2LogR) := by
  refine ⟨?_, ?_, ?_, ?_, ?_⟩
  · intro s name
    unfold SetKernelType
    by_cases h1 : name = "ThinPlateSpline" <;>
      by_cases h2 : name = "VolumeSpline" <;>
        by_cases h3 : name = "ElasticBodySpline" <;>
          by_cases h4 : name = "ElasticBodyReciprocalSpline" <;>
            simp [h1, h2, h3, h4]
  · intro s name h
    unfold SetKernelType at h ⊢
    by_cases h1 : name = "ThinPlateSpline" <;>
      by_cases h2 : name = "VolumeSpline" <;>
        by_cases h3 : name = "ElasticBodySpline" <;>
          by_cases h4 : name = "ElasticBodyReciprocalSpline" <;>
            simp_all [freshKernelTransform]
  · intro s name h
    unfold SetKernelType at h ⊢
    by_cases h1 : name = "ThinPlateSpline" <;>
      by_cases h2 : name = "VolumeSpline" <;>
        by_cases h3 : name = "ElasticBodySpline" <;>
          by_cases h4 : name = "ElasticBodyReciprocalSpline" <;>
            simp_all [freshKernelTransform]
  · intro s
    refine ⟨rfl, rfl, rfl, rfl⟩
  · intro s name
    refine ⟨rfl, rfl, rfl⟩

/-- Modelled from the spec: the Configuration collaborator (not among the
source files; the spec section 6 describes the transform parameter
representation as an ordered mapping from parameter name to a list of
string-encoded values, with recognized keys SplineKernelType,
SplineRelaxationFactor, SplinePoissonRatio, TPSMatrixInversionMethod,
NumberOfParameters and FixedImageLandmarks, plus the command-line
arguments -fp, -ipp and -mp). A typed view: each recognized key is either
absent or holds its decoded value, and a ReadParameter call with a default
yields the stored value when the key is present and the default otherwise.
The transformParameters field stands for the TransformParameters list that
the TransformBase superclass serializes. -/
structure Configuration where
  splineKernelType : Option String := none
  splineRelaxationFactor : Option Rat := none
  splinePoisson : Option Rat := none
  tpsMatrixInversionMethod : Option String := none
  numberOfParameters : Option Nat := none
  fixedImageLandmarks : Option (List Rat) := none
  transformParameters : Option (List Rat) := none
  argFp : String := ""
  argIpp : String := ""
  argMp : String := ""
deriving DecidableEq, Repr

/-- Modelled from the spec: the vector overload of Configuration
ReadParameter used for FixedImageLandmarks, asked for entries 0 up to
entryEnd of the named key into a buffer of bufLen zero-initialised values.
It reports failure when the key is absent or the stored list is too short
for the last requested entry, and on success fills the buffer with the
first bufLen stored values. -/
def readVectorParameter (supplied : Option (List Rat)) (bufLen : Nat)
    (entryEnd : Nat) : List Rat × Bool :=
  match supplied with
  | none => (List.replicate bufLen 0, false)
  | some vals =>
    if entryEnd < vals.length then (vals.take bufLen, true)
    else (List.replicate bufLen 0, false)

/-- Update the kernel-transform object owned by the engine, modelling a
call on the m_KernelTransform pointer. -/
def modifyKT (s : Engine) (f : KernelTransform → KernelTransform) : Engine :=
  { s with m_KernelTransform := f s.m_KernelTransform }

/-- Errors the component throws via itkExceptionMacro, one constructor per
distinct raise site relevant here. -/
inductive ElxError where
  | unsupportedKernelType
  | missingSplineKernelType
  | missingFixedImageLandmarks
deriving DecidableEq, Repr

/-- SetSourceLandmarks on the kernel transform (the fit over the fixed
landmarks); only the fact that it was invoked matters to the claims. -/
def SetSourceLandmarksF (kt : KernelTransform) : KernelTransform :=
  { kt with sourceLandmarksSet := true }

/-- SetTargetLandmarks on the kernel transform. -/
def SetTargetLandmarksF (kt : KernelTransform) : KernelTransform :=
  { kt with targetLandmarksSet := true }

/-- SetIdentity on the kernel transform. -/
def SetIdentityF (kt : KernelTransform) : KernelTransform :=
  { kt with identitySet := true }

/-- SplineKernelTransform::DetermineTargetLandmarks
(elxSplineKernelTransform.hxx lines 263 to 295): when the -mp command-line
argument is empty it returns false at once; otherwise it loads the moving
landmark file and passes the points to SetTargetLandmarks, returning true. -/
def DetermineTargetLandmarks (cfg : Configuration) (s : Engine) :
    Bool × Engine :=
  if cfg.argMp = "" then (false, s)
  else (true, modifyKT s SetTargetLandmarksF)

/-- SplineKernelTransform::BeforeRegistration (elxSplineKernelTransform.hxx
lines 162 to 219). Reads the family name (default ThinPlateSpline), aborts
when SetKernelType rejects it; sets the stiffness from
SplineRelaxationFactor (default 0); sets the Poisson ratio (default 3/10,
from SplinePoissonRatio) when the family name string equals
ElasticBodySpline or ElastixBodyReciprocalSpline — the second comparison
string is misspelled in the source, with Elastix for Elastic, and the model
keeps the misspelling; sets the matrix inversion method (default SVD);
loads the source landmarks; and when DetermineTargetLandmarks reports no
moving landmarks, calls SetIdentity on the kernel transform. -/
def BeforeRegistration (SpaceDimension : Nat) (cfg : Configuration)
    (s : Engine) : Except ElxError Engine :=
  let kernelType := cfg.splineKernelType.getD "ThinPlateSpline"
  let p := SetKernelType SpaceDimension s kernelType
  if p.2 = false then .error .unsupportedKernelType else
  let s1 := modifyKT p.1 fun kt =>
    { kt with stiffness := cfg.splineRelaxationFactor.getD 0 }
  let s2 :=
    if kernelType = "ElasticBodySpline" ∨ kernelType = "ElastixBodyReciprocalSpline" then
      modifyKT s1 fun kt =>
        { kt with poisson := cfg.splinePoisson.getD (3/10), poissonSet := true }
    else s1
  let s3 := modifyKT s2 fun kt =>
    { kt with inversionMethod := cfg.tpsMatrixInversionMethod.getD "SVD" }
  let s4 := modifyKT s3 SetSourceLandmarksF
  let q := DetermineTargetLandmarks cfg s4
  let s5 := if q.1 = false then modifyKT q.2 SetIdentityF else q.2
  .ok s5

/-- Modelled from the spec: the TransformBase superclass ReadFromFile that
SplineKernelTransform::ReadFromFile calls last; per spec section 4.3 the
store round-trips the fitted state, so this step assigns the
TransformParameters list read from the map to the transform parameters. -/
def superclassReadParameters (cfg : Configuration) (kt : KernelTransform) :
    KernelTransform :=
  { kt with parameters := cfg.transformParameters.getD [] }

/-- SplineKernelTransform::ReadFromFile (elxSplineKernelTransform.hxx lines
402 to 466). Raises an error when the SplineKernelType key is absent;
otherwise calls SetKernelType and ignores its boolean result, sets the
stiffness and (unconditionally) the Poisson ratio from the map, reads
NumberOfParameters ignoring whether the key was present (absent means the
default 0 is kept), reads entries 0 to NumberOfParameters - 1 (unsigned
arithmetic) of FixedImageLandmarks, raising an error when that read
fails, assigns the result as fixed parameters, and finally runs the
superclass ReadFromFile. -/
def ReadFromFile (SpaceDimension : Nat) (cfg : Configuration) (s : Engine) :
    Except ElxError Engine :=
  let kernelType := cfg.splineKernelType.getD "unknown"
  if cfg.splineKernelType.isSome = false then .error .missingSplineKernelType else
  let s1 := (SetKernelType SpaceDimension s kernelType).1
  let s2 := modifyKT s1 fun kt =>
    { kt with stiffness := cfg.splineRelaxationFactor.getD 0 }
  let s3 := modifyKT s2 fun kt =>
    { kt with poisson := cfg.splinePoisson.getD (3/10), poissonSet := true }
  let numberOfParameters := cfg.numberOfParameters.getD 0
  let r := readVectorParameter cfg.fixedImageLandmarks numberOfParameters
    (u32pred numberOfParameters)
  if r.2 = false then .error .missingFixedImageLandmarks else
  let s4 := modifyKT s3 fun kt => { kt with fixedParameters := r.1 }
  .ok (modifyKT s4 (superclassReadParameters cfg))

/-- SplineKernelTransform::WriteToFile (elxSplineKernelTransform.hxx lines
474 to 504), as the parameter map the written lines denote: the superclass
TransformBase::WriteToFile part is modelled from the spec (it serializes
NumberOfParameters and the TransformParameters list for the given
parameters), and the component itself adds SplineKernelType,
SplinePoissonRatio, SplineRelaxationFactor and the fixed parameters as
FixedImageLandmarks. -/
def WriteToFile (s : Engine) (param : List Rat) : Configuration :=
  { numberOfParameters := some param.length
    transformParameters := some param
    splineKernelType := some s.m_SplineKernelType
    splinePoisson := some s.m_KernelTransform.poisson
    splineRelaxationFactor := some s.m_KernelTransform.stiffness
    fixedImageLandmarks := some s.m_KernelTransform.fixedParameters }

/-- Indices of the fixed-parameter array read by the WriteToFile loop
for i = 0 while i < GetSize() - 1 (elxSplineKernelTransform.hxx lines 498
to 501), with the subtraction on unsigned int. -/
def writeToFileLoopIndices (size : Nat) : List Nat := List.range (u32pred size)

/-- Index of the final fixed-parameter access fixedParams[GetSize() - 1]
in WriteToFile (elxSplineKernelTransform.hxx line 502), with the
subtraction on unsigned int. -/
def writeToFileFinalIndex (size : Nat) : Nat := u32pred size

/-- The components of the kernel-transform state that determine evaluation
at a query point: the family, the stiffness, the Poisson ratio value, the
fixed parameters (source landmarks) and the parameters. Evaluation is a
pure function of these, so equal tuples give pointwise equal transforms. -/
def evalState (kt : KernelTransform) : KernelKind × Rat × Rat × List Rat × List Rat :=
  (kt.kind, kt.stiffness, kt.poisson, kt.fixedParameters, kt.parameters)

/-- Whether an Except value carries a success. -/
def isOkE {ε α : Type} : Except ε α → Bool
  | .ok _ => true
  | .error _ => false

/-- Helper: the unsigned decrement of n is n - 1 whenever 1 ≤ n < 2^32. -/
theorem u32pred_of_pos (n : Nat) (h1 : 1 ≤ n) (h2 : n < UINT_MAX_SUCC) :
    u32pred n = n - 1 := by
  unfold u32pred UINT_MAX_SUCC at *
  omega

/-- Helper: a failed SetKernelType leaves the generic kernel transform and
does not touch the current transform. -/
theorem setKernelType_failed_generic (d : Nat) (s : Engine) (name : String)
    (h : (SetKernelType d s name).2 = false) :
    (SetKernelType d s name).1.m_KernelTransform.kind = KernelKind.generic ∧
    (SetKernelType d s name).1.currentTransform = s.currentTransform := by
  unfold SetKernelType at h ⊢
  by_cases hd : d = 2
  · simp [hd] at h
  · by_cases h1 : name = "ThinPlateSpline" <;>
      by_cases h2 : name = "VolumeSpline" <;>
        by_cases h3 : name = "ElasticBodySpline" <;>
          by_cases h4 : name = "ElasticBodyReciprocalSpline" <;>
            simp_all [freshKernelTransform]

/-- Configuration naming the reciprocal elastic family with moving
landmarks supplied. -/
def cfgElasticReciprocal : Configuration :=
  { splineKernelType := some "ElasticBodyReciprocalSpline", argMp := "mp.txt" }

/-- Configuration naming the plain elastic family with moving landmarks
supplied. -/
def cfgElasticBody : Configuration :=
  { splineKernelType := some "ElasticBodySpline", argMp := "mp.txt" }

/-- C2: the code compares the family name against the misspelled string
ElastixBodyReciprocalSpline, so a fit configured with the
ElasticBodyReciprocalSpline family never receives SetPoissonRatio, while
the ElasticBodySpline family does; this evaluates BeforeRegistration at
both failing and passing inputs. -/
theorem beforeRegistration_poisson_skipped_for_reciprocal :
    (BeforeRegistration 3 cfgElasticReciprocal (mkEngine 3)).map
        (fun s => (s.m_KernelTransform.kind, s.m_KernelTransform.poissonSet))
      = .ok (KernelKind.elasticBodyReciprocal, false) ∧
    (BeforeRegistration 3 cfgElasticBody (mkEngine 3)).map
        (fun s => (s.m_KernelTransform.kind, s.m_KernelTransform.poissonSet))
      = .ok (KernelKind.elasticBody, true) := by
  refine ⟨rfl, rfl⟩

/-- Configuration declaring 2 parameters but supplying 4 landmark values. -/
def cfgOverSupplied : Configuration :=
  { splineKernelType := some "ThinPlateSpline", numberOfParameters := some 2,
    fixedImageLandmarks := some [1, 2, 3, 4] }

/-- C3 counterexample: a declared parameter count that does not match the
number of supplied FixedImageLandmarks values (2 declared, 4 supplied)
raises no error: ReadFromFile succeeds and silently keeps only the first
2 values. -/
theorem readFromFile_count_mismatch_tolerated :
    isOkE (ReadFromFile 3 cfgOverSupplied (mkEngine 3)) = true ∧
    (ReadFromFile 3 cfgOverSupplied (mkEngine 3)).map
        (fun s => s.m_KernelTransform.fixedParameters) = .ok [1, 2] := by
  refine ⟨rfl, rfl⟩

/-- C3 (amended): ReadFromFile raises an error when SplineKernelType is
absent; when NumberOfParameters is absent the default 0 makes the unsigned
end index underflow, so the FixedImageLandmarks read fails and the
landmarks configuration error is raised (for any realistic supplied list,
shorter than 2^32); and for a present count n with 1 ≤ n < 2^32 the
configuration error is raised exactly when fewer than n landmark values
are supplied — surplus values beyond n are ignored without error. -/
theorem readFromFile_missing_and_count_checks :
    (∀ SpaceDimension cfg s, cfg.splineKernelType = none →
        ReadFromFile SpaceDimension cfg s = .error ElxError.missingSplineKernelType) ∧
    (∀ SpaceDimension cfg s name, cfg.splineKernelType = some name →
        cfg.numberOfParameters = none →
        (∀ vals, cfg.fixedImageLandmarks = some vals → vals.length < UINT_MAX_SUCC) →
        ReadFromFile SpaceDimension cfg s = .error ElxError.missingFixedImageLandmarks) ∧
    (∀ SpaceDimension cfg s name n vals, cfg.splineKernelType = some name →
        cfg.numberOfParameters = some n → cfg.fixedImageLandmarks = some vals →
        1 ≤ n → n < UINT_MAX_SUCC →
        (ReadFromFile SpaceDimension cfg s = .error ElxError.missingFixedImageLandmarks
          ↔ vals.length < n)) := by
  refine ⟨?_, ?_, ?_⟩
  · intro d cfg s h
    unfold ReadFromFile
    rw [h]
    rfl
  · intro d cfg s name hk hn hb
    unfold ReadFromFile
    rw [hk, hn]
    rcases hfl : cfg.fixedImageLandmarks with _ | vals
    · simp [readVectorParameter]
    · have hlen := hb vals hfl
      unfold UINT_MAX_SUCC at hlen
      simp only [Option.isSome_some, Option.getD_none, readVectorParameter]
      have hend : ¬ (u32pred 0 < vals.length) := by
        unfold u32pred UINT_MAX_SUCC
        omega
      simp [hend]
  · intro d cfg s name n vals hk hn hfl hpos hsmall
    unfold ReadFromFile
    rw [hk, hn, hfl]
    simp only [Option.getD_some, Option.isSome_some, readVectorParameter]
    rw [u32pred_of_pos n hpos hsmall]
    by_cases hlt : vals.length < n
    · have hend : ¬ (n - 1 < vals.length) := by omega
      simp [hend, hlt]
    · have hend : n - 1 < vals.length := by omega
      simp [hend, hlt]

/-- C3 witness: the amended theorem applied at a concrete configuration
with no SplineKernelType key. -/
theorem readFromFile_missing_and_count_checks_witness :
    ReadFromFile 3 ({} : Configuration) (mkEngine 3)
      = .error ElxError.missingSplineKernelType :=
  readFromFile_missing_and_count_checks.1 3 ({} : Configuration) (mkEngine 3) rfl

/-- C4: write-then-read round-trip. For a fitted transform whose stored
family name selects its own kernel class (as BeforeRegistration
guarantees), with as many parameters as fixed parameters (the kernel
transform invariant: both lists hold dimension times landmark-count
values) and a realistic nonzero length, ReadFromFile applied to the map
WriteToFile produced reconstructs the evaluation-determining state
exactly: family, stiffness, Poisson ratio, fixed parameters and
parameters. Evaluation is a pure function of this state, so the read-back
transform evaluates identically at every query point, and no fitting
solve is re-run (ReadFromFile only assigns stored values). -/
theorem writeReadRoundTrip (SpaceDimension : Nat) (s s2 : Engine)
    (hkind : ((SetKernelType SpaceDimension s2 s.m_SplineKernelType).1).m_KernelTransform.kind
      = s.m_KernelTransform.kind)
    (hlen : s.m_KernelTransform.parameters.length
      = s.m_KernelTransform.fixedParameters.length)
    (hpos : 1 ≤ s.m_KernelTransform.fixedParameters.length)
    (hsmall : s.m_KernelTransform.fixedParameters.length < UINT_MAX_SUCC) :
    (ReadFromFile SpaceDimension (WriteToFile s s.m_KernelTransform.parameters) s2).map
        (fun t => evalState t.m_KernelTransform)
      = .ok (evalState s.m_KernelTransform) := by
  unfold ReadFromFile WriteToFile
  simp only [Option.isSome_some, Option.getD_some, modifyKT, superclassReadParameters]
  rw [hlen, u32pred_of_pos _ hpos hsmall]
  have hend : s.m_KernelTransform.fixedParameters.length - 1
      < s.m_KernelTransform.fixedParameters.length := by omega
  simp [readVectorParameter, hend, List.take_length, evalState, hkind, Except.map]

/-- A fitted engine used to instantiate the round-trip theorem. -/
def engineFittedSample : Engine :=
  modifyKT (SetKernelType 3 (mkEngine 3) "VolumeSpline").1 fun kt =>
    { kt with fixedParameters := [1, 2, 3], parameters := [4, 5, 6],
              stiffness := 1/2 }

/-- C4 witness: the round-trip theorem applied to a concrete fitted
volume-spline engine with three fixed parameters. -/
theorem writeReadRoundTrip_witness :
    (ReadFromFile 3
        (WriteToFile engineFittedSample engineFittedSample.m_KernelTransform.parameters)
        (mkEngine 3)).map (fun t => evalState t.m_KernelTransform)
      = .ok (evalState engineFittedSample.m_KernelTransform) :=
  writeReadRoundTrip 3 engineFittedSample (mkEngine 3) (by decide) (by decide)
    (by decide) (by decide)

/-- C7: when no moving landmark file is given (-mp empty),
DetermineTargetLandmarks reports false, and BeforeRegistration succeeds
(given that the requested family is accepted) with SetIdentity invoked on
the kernel transform instead of any degenerate fit. -/
theorem beforeRegistration_identity_when_mp_absent (SpaceDimension : Nat)
    (cfg : Configuration) (s : Engine)
    (hmp : cfg.argMp = "")
    (hok : (SetKernelType SpaceDimension s (cfg.splineKernelType.getD "ThinPlateSpline")).2
      = true) :
    (DetermineTargetLandmarks cfg s).1 = false ∧
    ∃ t, BeforeRegistration SpaceDimension cfg s = .ok t ∧
      t.m_KernelTransform.identitySet = true := by
  constructor
  · unfold DetermineTargetLandmarks
    simp [hmp]
  · unfold BeforeRegistration DetermineTargetLandmarks
    simp [hok, hmp, modifyKT, SetIdentityF]

/-- C7 witness: the identity theorem applied at the default configuration
(no SplineKernelType key, so ThinPlateSpline; no -mp argument) in 3-D. -/
theorem beforeRegistration_identity_when_mp_absent_witness :
    (DetermineTargetLandmarks ({} : Configuration) (mkEngine 3)).1 = false ∧
    ∃ t, BeforeRegistration 3 ({} : Configuration) (mkEngine 3) = .ok t ∧
      t.m_KernelTransform.identitySet = true :=
  beforeRegistration_identity_when_mp_absent 3 ({} : Configuration) (mkEngine 3) rfl rfl

/-- C9: deserialization tolerates an unrecognized family name. When the
SplineKernelType key is present, ReadFromFile never raises the
missing-family error, even when SetKernelType rejects the stored name; it
then proceeds with the generic (disabled) kernel transform and succeeds
whenever the landmark read succeeds. The missing-family error is raised
exactly when the key itself is absent. -/
theorem readFromFile_unknown_family_tolerated :
    (∀ SpaceDimension cfg s, cfg.splineKernelType.isSome = true →
        ReadFromFile SpaceDimension cfg s ≠ .error ElxError.missingSplineKernelType) ∧
    (∀ cfg s name n vals, cfg.splineKernelType = some name →
        (SetKernelType 3 s name).2 = false →
        cfg.numberOfParameters = some n → cfg.fixedImageLandmarks = some vals →
        1 ≤ n → n < UINT_MAX_SUCC → n ≤ vals.length →
        ∃ t, ReadFromFile 3 cfg s = .ok t ∧
          t.m_KernelTransform.kind = KernelKind.generic) ∧
    (∀ SpaceDimension cfg s, cfg.splineKernelType = none →
        ReadFromFile SpaceDimension cfg s = .error ElxError.missingSplineKernelType) := by
  refine ⟨?_, ?_, ?_⟩
  · intro d cfg s h
    unfold ReadFromFile
    rw [h]
    simp only [Bool.true_eq_false, if_false]
    split
    · simp
    · simp
  · intro cfg s name n vals hk hfail hn hfl hpos hsmall hle
    have hgen := setKernelType_failed_generic 3 s name hfail
    unfold ReadFromFile
    rw [hk, hn, hfl]
    simp only [Option.getD_some, Option.isSome_some, readVectorParameter]
    rw [u32pred_of_pos n hpos hsmall]
    have hend : n - 1 < vals.length := by omega
    simp [hend, modifyKT, superclassReadParameters, hgen.1]
  · intro d cfg s h
    unfold ReadFromFile
    rw [h]
    rfl

/-- Configuration whose SplineKernelType holds a name no 3-D family
matches. -/
def cfgBogusFamily : Configuration :=
  { splineKernelType := some "SomeBogusSpline", numberOfParameters := some 2,
    fixedImageLandmarks := some [5, 6] }

/-- C9 witness: the tolerance theorem applied at a concrete map holding an
unrecognized family name; deserialization succeeds with the generic
kernel transform. -/
theorem readFromFile_unknown_family_tolerated_witness :
    ∃ t, ReadFromFile 3 cfgBogusFamily (mkEngine 3) = .ok t ∧
      t.m_KernelTransform.kind = KernelKind.generic :=
  readFromFile_unknown_family_tolerated.2.1 cfgBogusFamily (mkEngine 3)
    "SomeBogusSpline" 2 [5, 6] rfl (by decide) rfl rfl (by decide) (by decide)
    (by decide)

/-- C10: the WriteToFile accesses into the fixed-parameter array (the loop
indices below GetSize() - 1 and the final access at GetSize() - 1, both
with the subtraction on unsigned int) are all in bounds precisely when the
array holds at least one value; for an empty array the subtraction
underflows and the final access lands at index 2^32 - 1, out of bounds. -/
theorem writeToFile_bounds :
    (∀ size : Nat,
       ((∀ i ∈ writeToFileLoopIndices size, i < size) ∧
         writeToFileFinalIndex size < size)
         ↔ 1 ≤ size) ∧
    writeToFileFinalIndex 0 = UINT_MAX_SUCC - 1 := by
  constructor
  · intro size
    constructor
    · rintro ⟨-, hfinal⟩
      rcases Nat.eq_zero_or_pos size with h | h
      · subst h
        exact absurd hfinal (by decide)
      · exact h
    · intro h1
      refine ⟨?_, ?_⟩
      · intro i hi
        rw [writeToFileLoopIndices, List.mem_range] at hi
        unfold u32pred UINT_MAX_SUCC at hi
        omega
      · unfold writeToFileFinalIndex u32pred UINT_MAX_SUCC
        omega
  · decide

/-- State of a TransformixFilter as its constructor and setters leave it
(elxTransformixFilter.hxx): the primary input image (only its region size
matters to the checks), the point-set file name, the three derived-output
flags, output directory, log file name, the two logging toggles, and the
number of maps in the TransformParameterObject input. -/
structure TransformixFilter where
  inputImageSize0 : Nat := 0
  inputImageSize1 : Nat := 0
  m_InputPointSetFileName : String := ""
  m_ComputeSpatialJacobian : Bool := false
  m_ComputeDeterminantOfSpatialJacobian : Bool := false
  m_ComputeDeformationField : Bool := false
  m_OutputDirectory : String := ""
  m_LogFileName : String := ""
  m_LogToConsole : Bool := false
  m_LogToFile : Bool := false
  transformParameterMapCount : Nat := 1
deriving DecidableEq, Repr

/-- External collaborators of GenerateData: the filesystem existence test
(itksys SystemTools FileExists), whether elx xoutSetup fails, and the
outcome of TransformixMain Run (an exception message, or its integer
return code). -/
structure TransformixEnv where
  fileExists : String → Bool
  xoutSetupFails : Bool
  runOutcome : Except String Nat

/-- The distinct itkExceptionMacro sites of GenerateData. -/
inductive TransformixError where
  | emptyRequest
  | directoryNotFound (dir : String)
  | conflictingRequest
  | xoutSetupFailed
  | emptyParameterMap
  | applicationError (msg : String)
  | uncaughtError
deriving DecidableEq, Repr

/-- What one GenerateData call leaves behind: the raised error if any,
whether UnloadComponents was reached, the final output directory member,
the value inserted under -out, and the resolved log file path. -/
structure GenerateDataOutcome where
  raised : Option TransformixError
  unloadedComponents : Bool
  outputDirectory : String
  argOut : String
  logFileName : String
deriving DecidableEq, Repr

/-- An outcome that aborts with the given error before UnloadComponents. -/
def abortOutcome (e : TransformixError) (dir argOut logFileName : String) :
    GenerateDataOutcome :=
  { raised := some e, unloadedComponents := false, outputDirectory := dir,
    argOut := argOut, logFileName := logFileName }

/-- TransformixFilter::IsEmpty (elxTransformixFilter.hxx lines 238 to 246):
both components of the largest-possible-region size are zero. -/
def IsEmptyImage (s : TransformixFilter) : Bool :=
  s.inputImageSize0 == 0 && s.inputImageSize1 == 0

/-- The guard of the output-directory normalization (line 102):
back() != a slash or back() != a backslash. As written with an or, the
condition is a tautology. -/
def lacksTrailingSeparator (dir : String) : Bool :=
  dir.back != '/' || dir.back != '\\'

/-- The normalization applied to a non-empty output directory before it is
inserted under -out (elxTransformixFilter.hxx lines 102 to 105): append a
forward slash when the guard holds. -/
def normalizeOutputDirectory (dir : String) : String :=
  if lacksTrailingSeparator dir then dir ++ "/" else dir

/-- The five-fold disjunction guarding the output-directory defaulting and
existence checks (lines 65 to 69 and 76 to 80): any derived-field flag,
a point-set file name, or logging to file. -/
def anyOutputBesidesImage (s : TransformixFilter) : Bool :=
  s.m_ComputeSpatialJacobian || s.m_ComputeDeterminantOfSpatialJacobian ||
  s.m_ComputeDeformationField || s.m_InputPointSetFileName != "" || s.m_LogToFile

/-- Lines 65 to 73: when some output beyond the resampled image is
requested and no output directory is configured, default it to the current
working directory. -/
def resolveOutputDirectory (s : TransformixFilter) : TransformixFilter :=
  if anyOutputBesidesImage s && s.m_OutputDirectory == "" then
    { s with m_OutputDirectory := "." }
  else s

/-- Lines 96 to 108: the value inserted under -out, normalizing a
non-empty directory (and writing that normalization back into the
filter). -/
def outArgument (s : TransformixFilter) : TransformixFilter × String :=
  if s.m_OutputDirectory == "" then (s, "output_path_not_set")
  else ({ s with m_OutputDirectory := normalizeOutputDirectory s.m_OutputDirectory },
        normalizeOutputDirectory s.m_OutputDirectory)

/-- Lines 130 to 146: the log file path when logging to file is on —
outputDirectory followed by transformix.log when no name is configured,
else the configured name appended to the output directory, which is first
run through the same always-true separator guard (line 140 spells it on
the last character instead of back()). -/
def resolveLogFileName (s : TransformixFilter) : TransformixFilter × String :=
  if s.m_LogToFile then
    if s.m_LogFileName == "" then (s, s.m_OutputDirectory ++ "transformix.log")
    else if lacksTrailingSeparator s.m_OutputDirectory then
      ({ s with m_OutputDirectory := s.m_OutputDirectory ++ "/" },
       s.m_OutputDirectory ++ "/" ++ s.m_LogFileName)
    else (s, s.m_OutputDirectory ++ s.m_LogFileName)
  else (s, "")

/-- Lines 94 to 212 of GenerateData past the three validation checks:
argument-map assembly, log-file resolution, xout setup, the
empty-parameter-map check, the transformix run with its exception
wrapping and return-code check, and, only after a successful run, the
final TransformixMainType::UnloadComponents. -/
def generateDataEvaluate (env : TransformixEnv) (s1 : TransformixFilter) :
    GenerateDataOutcome :=
  let s2 := (outArgument s1).1
  let argOut := (outArgument s1).2
  let s3 := (resolveLogFileName s2).1
  let logFileName := (resolveLogFileName s2).2
  if env.xoutSetupFails then
    abortOutcome .xoutSetupFailed s3.m_OutputDirectory argOut logFileName
  else if s3.transformParameterMapCount == 0 then
    abortOutcome .emptyParameterMap s3.m_OutputDirectory argOut logFileName
  else
    match env.runOutcome with
    | .error msg =>
      abortOutcome (.applicationError msg) s3.m_OutputDirectory argOut logFileName
    | .ok code =>
      if code != 0 then
        abortOutcome .uncaughtError s3.m_OutputDirectory argOut logFileName
      else
        { raised := none, unloadedComponents := true,
          outputDirectory := s3.m_OutputDirectory, argOut := argOut,
          logFileName := logFileName }

/-- TransformixFilter::GenerateData (elxTransformixFilter.hxx lines 47 to
212): the empty-request check over the input image, point-set name and the
three derived-output flags; output-directory defaulting and existence
check; the deformation-field versus point-set conflict check; then the
evaluation phase. -/
def GenerateData (env : TransformixEnv) (s0 : TransformixFilter) :
    GenerateDataOutcome :=
  if IsEmptyImage s0 && s0.m_InputPointSetFileName == "" &&
      !s0.m_ComputeSpatialJacobian && !s0.m_ComputeDeterminantOfSpatialJacobian &&
      !s0.m_ComputeDeformationField then
    abortOutcome .emptyRequest s0.m_OutputDirectory "" ""
  else if anyOutputBesidesImage (resolveOutputDirectory s0) &&
      !(env.fileExists (resolveOutputDirectory s0).m_OutputDirectory) then
    abortOutcome (.directoryNotFound (resolveOutputDirectory s0).m_OutputDirectory)
      (resolveOutputDirectory s0).m_OutputDirectory "" ""
  else if (resolveOutputDirectory s0).m_ComputeDeformationField &&
      (resolveOutputDirectory s0).m_InputPointSetFileName != "" then
    abortOutcome .conflictingRequest (resolveOutputDirectory s0).m_OutputDirectory "" ""
  else
    generateDataEvaluate env (resolveOutputDirectory s0)

/-- Helper: the evaluation phase raises none of the three validation
errors, and reaches UnloadComponents exactly when it raises nothing. -/
theorem generateDataEvaluate_raised (env : TransformixEnv) (s : TransformixFilter) :
    ((generateDataEvaluate env s).raised = none ↔
      (generateDataEvaluate env s).unloadedComponents = true) ∧
    (generateDataEvaluate env s).raised ≠ some TransformixError.emptyRequest ∧
    (generateDataEvaluate env s).raised ≠ some TransformixError.conflictingRequest := by
  by_cases h1 : env.xoutSetupFails
  · simp [generateDataEvaluate, h1, abortOutcome]
  · by_cases h2 : (resolveLogFileName (outArgument s).1).1.transformParameterMapCount = 0
    · simp [generateDataEvaluate, h1, h2, abortOutcome]
    · rcases hr : env.runOutcome with msg | code
      · simp [generateDataEvaluate, h1, h2, hr, abortOutcome]
      · by_cases h3 : code = 0
        · simp [generateDataEvaluate, h1, h2, hr, h3, abortOutcome]
        · simp [generateDataEvaluate, h1, h2, hr, h3, abortOutcome]

/-- C6: the separator guard of the output-directory normalization is a
tautology (an or of two inequalities against distinct characters), so a
separator is appended unconditionally: a directory already ending in a
slash gains a second one, and the step is not idempotent. -/
theorem normalizeOutputDirectory_always_appends :
    (∀ dir, lacksTrailingSeparator dir = true) ∧
    normalizeOutputDirectory "out/" = "out//" ∧
    normalizeOutputDirectory (normalizeOutputDirectory "out") = "out//" := by
  have halways : ∀ dir, lacksTrailingSeparator dir = true := by
    intro dir
    unfold lacksTrailingSeparator
    by_cases h : dir.back = '/'
    · rw [h]
      decide
    · simp [bne_iff_ne, h]
  refine ⟨halways, ?_, ?_⟩
  · rw [normalizeOutputDirectory, if_pos]
    · decide
    · rw [halways]
  · rw [normalizeOutputDirectory, normalizeOutputDirectory, if_pos, if_pos]
    · decide
    · rw [halways]
    · rw [halways]

/-- C5 counterexample: with the deformation-field flag on and a point-set
file name given but a configured output directory that does not exist, the
run raises the directory error, not the conflicting-request error — the
claim that the conflict is raised whenever both are set fails. -/
theorem generateData_conflict_masked_by_missing_directory :
    (GenerateData
        { fileExists := fun _ => false, xoutSetupFails := false, runOutcome := .ok 0 }
        { m_ComputeDeformationField := true, m_InputPointSetFileName := "points.txt",
          m_OutputDirectory := "missing" }).raised
      = some (TransformixError.directoryNotFound "missing") ∧
    (GenerateData
        { fileExists := fun _ => false, xoutSetupFails := false, runOutcome := .ok 0 }
        { m_ComputeDeformationField := true, m_InputPointSetFileName := "points.txt",
          m_OutputDirectory := "missing" }).raised
      ≠ some TransformixError.conflictingRequest := by
  refine ⟨rfl, by decide⟩

/-- C5 (amended): the empty-request error is raised exactly when the input
image is empty, the point-set file name is empty and none of the three
derived-output flags is set; and the conflicting-request error is raised
whenever the deformation-field flag is on and a point-set name is given,
provided the resolved output directory (the configured one, or the
current working directory when none is configured) passes the existence
check that runs first. -/
theorem generateData_validation :
    (∀ env s, (GenerateData env s).raised = some TransformixError.emptyRequest ↔
        (IsEmptyImage s = true ∧ s.m_InputPointSetFileName = "" ∧
         s.m_ComputeSpatialJacobian = false ∧
         s.m_ComputeDeterminantOfSpatialJacobian = false ∧
         s.m_ComputeDeformationField = false)) ∧
    (∀ env s, s.m_ComputeDeformationField = true → s.m_InputPointSetFileName ≠ "" →
        env.fileExists (if s.m_OutputDirectory = "" then "." else s.m_OutputDirectory)
          = true →
        (GenerateData env s).raised = some TransformixError.conflictingRequest) := by
  constructor
  · intro env s
    unfold GenerateData
    split
    case isTrue h =>
      simp only [Bool.and_eq_true, Bool.not_eq_true', beq_iff_eq] at h
      simp only [abortOutcome, Option.some.injEq]
      constructor
      · intro _
        exact ⟨h.1.1.1.1, h.1.1.1.2, h.1.1.2, h.1.2, h.2⟩
      · intro _
        trivial
    case isFalse h =>
      constructor
      · intro hr
        exfalso
        split at hr
        · exact absurd hr (by simp [abortOutcome])
        · split at hr
          · exact absurd hr (by simp [abortOutcome])
          · exact (generateDataEvaluate_raised env _).2.1 hr
      · intro hP
        exfalso
        apply h
        simp only [Bool.and_eq_true, Bool.not_eq_true', beq_iff_eq]
        exact ⟨⟨⟨⟨hP.1, hP.2.1⟩, hP.2.2.1⟩, hP.2.2.2.1⟩, hP.2.2.2.2⟩
  · intro env s hdef hps hfe
    unfold GenerateData
    have hany : anyOutputBesidesImage s = true := by
      simp [anyOutputBesidesImage, hdef]
    have hs1dir : (resolveOutputDirectory s).m_OutputDirectory
        = (if s.m_OutputDirectory = "" then "." else s.m_OutputDirectory) := by
      unfold resolveOutputDirectory
      rw [hany]
      by_cases hd : s.m_OutputDirectory = ""
      · simp [hd]
      · simp [hd]
    have hany1 : anyOutputBesidesImage (resolveOutputDirectory s) = true := by
      unfold resolveOutputDirectory
      split
      · simp_all [anyOutputBesidesImage]
      · exact hany
    have hdef1 : (resolveOutputDirectory s).m_ComputeDeformationField = true := by
      unfold resolveOutputDirectory
      split
      · exact hdef
      · exact hdef
    have hps1 : (resolveOutputDirectory s).m_InputPointSetFileName ≠ "" := by
      unfold resolveOutputDirectory
      split
      · exact hps
      · exact hps
    have hempty : (IsEmptyImage s && s.m_InputPointSetFileName == "" &&
        !s.m_ComputeSpatialJacobian && !s.m_ComputeDeterminantOfSpatialJacobian &&
        !s.m_ComputeDeformationField) = false := by
      simp [hdef]
    rw [hempty]
    have hdir : (anyOutputBesidesImage (resolveOutputDirectory s) &&
        !(env.fileExists (resolveOutputDirectory s).m_OutputDirectory)) = false := by
      rw [hany1, hs1dir, hfe]
      rfl
    rw [hdir]
    have hconf : ((resolveOutputDirectory s).m_ComputeDeformationField &&
        (resolveOutputDirectory s).m_InputPointSetFileName != "") = true := by
      rw [hdef1]
      simp [bne_iff_ne, hps1]
    rw [hconf]
    simp [abortOutcome]

/-- C5 witness: the conflict half of the validation theorem applied at a
filter with the deformation-field flag on, a point-set name, no configured
output directory, and a filesystem on which every path exists. -/
theorem generateData_validation_witness :
    (GenerateData
        { fileExists := fun _ => true, xoutSetupFails := false, runOutcome := .ok 0 }
        { m_ComputeDeformationField := true,
          m_InputPointSetFileName := "points.txt" }).raised
      = some TransformixError.conflictingRequest :=
  generateData_validation.2
    { fileExists := fun _ => true, xoutSetupFails := false, runOutcome := .ok 0 }
    { m_ComputeDeformationField := true, m_InputPointSetFileName := "points.txt" }
    rfl (by decide) rfl

/-- C8 counterexample: a run in which TransformixMain Run throws ends with
the wrapped application error and without reaching UnloadComponents, so
not every run releases the component registries. -/
theorem generateData_no_unload_on_error :
    (GenerateData
        { fileExists := fun _ => true, xoutSetupFails := false,
          runOutcome := .error "internal failure" }
        { m_ComputeDeformationField := true }).raised
      = some (TransformixError.applicationError "internal failure") ∧
    (GenerateData
        { fileExists := fun _ => true, xoutSetupFails := false,
          runOutcome := .error "internal failure" }
        { m_ComputeDeformationField := true }).unloadedComponents = false := by
  refine ⟨rfl, rfl⟩

/-- C8 (amended): UnloadComponents is reached exactly on the runs whose
evaluation completes without error; every aborting path (validation
failure, xout setup failure, empty parameter map, a throwing run or a
nonzero return code) propagates its error without releasing the
process-wide component registries. -/
theorem generateData_unload_iff_success :
    ∀ env s, (GenerateData env s).unloadedComponents = true ↔
      (GenerateData env s).raised = none := by
  intro env s
  unfold GenerateData
  split
  · simp [abortOutcome]
  · split
    · simp [abortOutcome]
    · split
      · simp [abortOutcome]
      · exact ((generateDataEvaluate_raised env _).1).symm

end Elx
